import Mathlib

/-!
Verification development for the Schlep-engine Rust SDK
(`src/client.rs`, `src/error.rs`, `src/types.rs`, `src/api/ml.rs`,
`src/api/storage.rs`).

The development shallowly embeds the SDK's request/response dispatch core:
JSON bodies are `Json` values, `parseJson` models `serde_json::from_str::<Value>`,
`handleResponse` models `SchlepClient::handle_response`, `download` models
`SchlepClient::download`, the header builders model `default_headers` and the
inline header construction of `post_multipart`, and the list-path builders
model the manual query-string construction of `MLClient::list_pipelines` and
`StorageClient::list_files`.
-/

set_option maxRecDepth 4096

namespace Schlep

/-- JSON values, modelling `serde_json::Value`. Numbers keep their source
text (`num raw`): the SDK never inspects numeric values, it only re-renders
numbers that were produced by serialising integers, for which the literal
text and `Value::to_string()` coincide. Objects are association lists in
insertion order with duplicate keys collapsed (last value wins), matching
lookup behaviour of `serde_json::Map`. -/
inductive Json where
  | null
  | bool (b : Bool)
  | num (raw : String)
  | str (s : String)
  | arr (elems : List Json)
  | obj (fields : List (String × Json))

/-- Whether a JSON value is `Value::Null`. -/
def Json.isNull : Json → Bool
  | .null => true
  | _ => false

/-- Left brace character, written via its code point. -/
def lbrace : Char := Char.ofNat 123

/-- Right brace character, written via its code point. -/
def rbrace : Char := Char.ofNat 125

/-- JSON insignificant whitespace (space, tab, line feed, carriage return). -/
def jsonWsChar (c : Char) : Bool :=
  c == ' ' || c == '\t' || c == '\n' || c == '\r'

/-- Drop leading JSON whitespace. -/
def skipWs : List Char → List Char
  | [] => []
  | c :: cs => if jsonWsChar c then skipWs cs else c :: cs

/-- ASCII decimal digit test. -/
def isDigitChar (c : Char) : Bool :=
  48 ≤ c.toNat && c.toNat ≤ 57

/-- Value of one hexadecimal digit. -/
def hexVal (c : Char) : Option Nat :=
  if 48 ≤ c.toNat && c.toNat ≤ 57 then some (c.toNat - 48)
  else if 97 ≤ c.toNat && c.toNat ≤ 102 then some (c.toNat - 87)
  else if 65 ≤ c.toNat && c.toNat ≤ 70 then some (c.toNat - 55)
  else none

/-- Parse exactly four hexadecimal digits (the `XXXX` of a `\uXXXX` escape). -/
def parseHex4 : List Char → Option (Nat × List Char)
  | a :: b :: c :: d :: rest =>
    match hexVal a, hexVal b, hexVal c, hexVal d with
    | some va, some vb, some vc, some vd =>
      some (va * 4096 + vb * 256 + vc * 16 + vd, rest)
    | _, _, _, _ => none
  | _ => none

/-- Parse the body of a JSON string after the opening quote, handling the
escape sequences serde_json accepts, including surrogate pairs; lone
surrogates and unescaped control characters are rejected as serde does. -/
def parseJString : Nat → List Char → List Char → Option (String × List Char)
  | 0, _, _ => none
  | _ + 1, [], _ => none
  | fuel + 1, c :: rest, acc =>
    if c == '"' then some (String.mk acc.reverse, rest)
    else if c == '\\' then
      match rest with
      | [] => none
      | e :: rest2 =>
        if e == '"' then parseJString fuel rest2 ('"' :: acc)
        else if e == '\\' then parseJString fuel rest2 ('\\' :: acc)
        else if e == '/' then parseJString fuel rest2 ('/' :: acc)
        else if e == 'b' then parseJString fuel rest2 (Char.ofNat 8 :: acc)
        else if e == 'f' then parseJString fuel rest2 (Char.ofNat 12 :: acc)
        else if e == 'n' then parseJString fuel rest2 ('\n' :: acc)
        else if e == 'r' then parseJString fuel rest2 ('\r' :: acc)
        else if e == 't' then parseJString fuel rest2 ('\t' :: acc)
        else if e == 'u' then
          match parseHex4 rest2 with
          | none => none
          | some (n, rest3) =>
            if 0xD800 ≤ n ∧ n ≤ 0xDBFF then
              match rest3 with
              | '\\' :: 'u' :: rest4 =>
                match parseHex4 rest4 with
                | some (m, rest5) =>
                  if 0xDC00 ≤ m ∧ m ≤ 0xDFFF then
                    parseJString fuel rest5
                      (Char.ofNat (0x10000 + (n - 0xD800) * 0x400 + (m - 0xDC00)) :: acc)
                  else none
                | none => none
              | _ => none
            else if 0xDC00 ≤ n ∧ n ≤ 0xDFFF then none
            else parseJString fuel rest3 (Char.ofNat n :: acc)
        else none
    else if c.toNat < 0x20 then none
    else parseJString fuel rest (c :: acc)

/-- Take a maximal run of decimal digits. -/
def takeDigits : List Char → (List Char × List Char)
  | [] => ([], [])
  | c :: cs =>
    if isDigitChar c then
      let (ds, rest) := takeDigits cs
      (c :: ds, rest)
    else ([], c :: cs)

/-- Integer part of a JSON number: `0`, or a nonzero digit followed by digits
(leading zeros are rejected, as in serde_json). -/
def parseIntPart : List Char → Option (List Char × List Char)
  | [] => none
  | c :: cs =>
    if c == '0' then some ([c], cs)
    else if isDigitChar c then
      let (ds, rest) := takeDigits cs
      some (c :: ds, rest)
    else none

/-- Optional fraction part `.digits` of a JSON number. -/
def parseFracPart : List Char → Option (List Char × List Char)
  | '.' :: cs =>
    match takeDigits cs with
    | ([], _) => none
    | (ds, rest) => some ('.' :: ds, rest)
  | cs => some ([], cs)

/-- Optional exponent part `e|E [+|-] digits` of a JSON number. -/
def parseExpPart : List Char → Option (List Char × List Char)
  | [] => some ([], [])
  | c :: cs =>
    if c == 'e' || c == 'E' then
      match cs with
      | [] => none
      | s :: cs2 =>
        if s == '+' || s == '-' then
          match takeDigits cs2 with
          | ([], _) => none
          | (ds, rest) => some (c :: s :: ds, rest)
        else
          match takeDigits cs with
          | ([], _) => none
          | (ds, rest) => some (c :: ds, rest)
    else some ([], c :: cs)

/-- Parse a JSON number token, keeping its source text. -/
def parseNumber (cs : List Char) : Option (String × List Char) :=
  let (neg, cs1) :=
    match cs with
    | '-' :: rest => (['-'], rest)
    | _ => ([], cs)
  match parseIntPart cs1 with
  | none => none
  | some (ip, cs2) =>
    match parseFracPart cs2 with
    | none => none
    | some (fp, cs3) =>
      match parseExpPart cs3 with
      | none => none
      | some (ep, cs4) => some (String.mk (neg ++ ip ++ fp ++ ep), cs4)

/-- Insert a field into an object under construction, overwriting an existing
binding of the same key (last duplicate wins, as in `serde_json::Map`). -/
def insertField (k : String) (v : Json) : List (String × Json) → List (String × Json)
  | [] => [(k, v)]
  | (k', v') :: rest =>
    if k == k' then (k, v) :: rest else (k', v') :: insertField k v rest

mutual

/-- Parse one JSON value with no leading whitespace, modelling serde_json's
grammar. The fuel argument bounds recursion depth; `parseJson` supplies
enough for any input. -/
def parseValue : Nat → List Char → Option (Json × List Char)
  | 0, _ => none
  | _ + 1, [] => none
  | fuel + 1, c :: rest =>
    if c == 'n' then
      match rest with
      | 'u' :: 'l' :: 'l' :: r => some (.null, r)
      | _ => none
    else if c == 't' then
      match rest with
      | 'r' :: 'u' :: 'e' :: r => some (.bool true, r)
      | _ => none
    else if c == 'f' then
      match rest with
      | 'a' :: 'l' :: 's' :: 'e' :: r => some (.bool false, r)
      | _ => none
    else if c == '"' then
      match parseJString (rest.length + 1) rest [] with
      | some (s, r) => some (.str s, r)
      | none => none
    else if c == '[' then
      match skipWs rest with
      | [] => none
      | d :: r =>
        if d == ']' then some (.arr [], r)
        else
          match parseElems fuel (d :: r) with
          | some (xs, r2) => some (.arr xs, r2)
          | none => none
    else if c == lbrace then
      match skipWs rest with
      | [] => none
      | d :: r =>
        if d == rbrace then some (.obj [], r)
        else
          match parseFields fuel (d :: r) [] with
          | some (fs, r2) => some (.obj fs, r2)
          | none => none
    else if c == '-' || isDigitChar c then
      match parseNumber (c :: rest) with
      | some (s, r) => some (.num s, r)
      | none => none
    else none

/-- Parse a nonempty comma-separated element list of an array, up to and
including the closing bracket. -/
def parseElems : Nat → List Char → Option (List Json × List Char)
  | 0, _ => none
  | fuel + 1, cs =>
    match parseValue fuel cs with
    | none => none
    | some (v, r) =>
      match skipWs r with
      | [] => none
      | c :: r2 =>
        if c == ',' then
          match parseElems fuel (skipWs r2) with
          | some (vs, r3) => some (v :: vs, r3)
          | none => none
        else if c == ']' then some ([v], r2)
        else none

/-- Parse a nonempty comma-separated field list of an object, up to and
including the closing brace. -/
def parseFields : Nat → List Char → List (String × Json) →
    Option (List (String × Json) × List Char)
  | 0, _, _ => none
  | fuel + 1, cs, acc =>
    match cs with
    | '"' :: r =>
      match parseJString (r.length + 1) r [] with
      | none => none
      | some (k, r1) =>
        match skipWs r1 with
        | ':' :: r2 =>
          match parseValue fuel (skipWs r2) with
          | none => none
          | some (v, r3) =>
            match skipWs r3 with
            | [] => none
            | c :: r4 =>
              if c == ',' then parseFields fuel (skipWs r4) (insertField k v acc)
              else if c == rbrace then some (insertField k v acc, r4)
              else none
        | _ => none
    | _ => none

end

/-- Parse a complete JSON document, modelling `serde_json::from_str::<Value>`:
leading and trailing whitespace is allowed, anything else after the value is
an error, and the empty document is an error. -/
def parseJson (s : String) : Option Json :=
  match parseValue (s.length + 1) (skipWs s.toList) with
  | some (v, rest) => if (skipWs rest).isEmpty then some v else none
  | none => none

/-- Field lookup in a parsed object; models `Value::index` with a string key
followed by use of the resulting value. On our duplicate-free field lists the
first match is the binding. -/
def lookupField (k : String) : List (String × Json) → Option Json
  | [] => none
  | (k', v) :: rest => if k == k' then some v else lookupField k rest

/-- Models `error_json["message"].as_str()`: indexing a non-object or a
missing key yields `Value::Null`, and `as_str` is `none` unless the value is
a JSON string. -/
def Json.messageAsStr : Json → Option String
  | .obj fields =>
    match lookupField "message" fields with
    | some (.str s) => some s
    | _ => none
  | _ => none

/-- The SDK error type, modelling `schlep_engine::Error` (`src/error.rs`).
The `http` variant stands for transport failures (`reqwest::Error`), which
carry no structure the claims depend on. -/
inductive Error where
  | http (msg : String)
  | invalidResponse (msg : String)
  | api (code : Nat) (message : String)
  | config (msg : String)
  | serialization (msg : String)
  | urlParse (msg : String)
  | webSocket (msg : String)
deriving DecidableEq

/-- Models `reqwest::StatusCode::is_success`: the status is in `200..=299`. -/
def isSuccess (status : Nat) : Bool :=
  200 ≤ status && status ≤ 299

/-- Models `SchlepClient::handle_response::<T>` (`src/client.rs:321-343`).
The caller's deserialisation of the body into `T` is the `decode` argument;
`decode body = none` stands for a serde error (whose display text, appended
to the `"Failed to parse response: "` format in the source, is not modelled).
On a success status the body is decoded, a failure yielding
`Error::invalid_response`; on a non-success status the body is parsed as a
JSON value and `Error::api_error(status, message)` is produced with the
extracted `message` field, the fallback `"Unknown API error"`, or the raw
body text when the body is not JSON. -/
def handleResponse {T : Type} (decode : String → Option T)
    (status : Nat) (body : String) : Except Error T :=
  if isSuccess status then
    match decode body with
    | some v => .ok v
    | none => .error (.invalidResponse "Failed to parse response")
  else
    match parseJson body with
    | some errorJson =>
      .error (.api status ((errorJson.messageAsStr).getD "Unknown API error"))
    | none => .error (.api status body)

/-- Models `SchlepClient::download` (`src/client.rs:471-495`) from the point
where the response is available: on a success status the raw body is returned
unchanged; otherwise the error-extraction code duplicated in the source from
`handle_response` runs. The body is carried as a `String`; on the success
path the source calls `response.bytes()` and returns those bytes, which here
is the same body value. -/
def download (status : Nat) (body : String) : Except Error String :=
  if isSuccess status then
    .ok body
  else
    match parseJson body with
    | some errorJson =>
      .error (.api status ((errorJson.messageAsStr).getD "Unknown API error"))
    | none => .error (.api status body)

/-- Models deserialising a body into `serde_json::Value` itself, the `T` used
by discard-style calls such as `StorageClient::delete_file`. -/
def decodeValue (s : String) : Option Json :=
  parseJson s

/-- Models `StorageClient::delete_file` (`src/api/storage.rs:143-149`) from
the point where the response is available: the generic decode path runs with
`T = serde_json::Value` and the decoded value is discarded. -/
def delete_file (status : Nat) (body : String) : Except Error Unit :=
  match handleResponse decodeValue status body with
  | .ok _ => .ok ()
  | .error e => .error e

/-- Validity of one byte of an HTTP header value per the `http` crate
(`HeaderValue::from_str`): horizontal tab, or a byte in `32..=255` other than
DEL (127). A Rust `&str` is UTF-8, so every byte of a character above
U+007F is at least `0x80` and hence valid; validity of a string therefore
reduces to this test on its characters' code points for ASCII characters. -/
def isValidHeaderChar (c : Char) : Bool :=
  c == '\t' || (32 ≤ c.toNat && c.toNat != 127)

/-- Validity of a whole string as an HTTP header value. -/
def isValidHeaderValue (s : String) : Bool :=
  s.toList.all isValidHeaderChar

/-- Models `SchlepClient::default_headers` (`src/client.rs:309-318`): an
`Authorization: Bearer <api_key>` entry built with `HeaderValue::from_str`
(whose failure becomes a configuration error; the appended display text of
the header-value error is not modelled) and a
`Content-Type: application/json` entry. Header maps are association lists
keyed by the lowercase header names of the `http` crate constants. -/
def default_headers (api_key : String) : Except Error (List (String × String)) :=
  if isValidHeaderValue ("Bearer " ++ api_key) then
    .ok [("authorization", "Bearer " ++ api_key),
         ("content-type", "application/json")]
  else
    .error (.config "Invalid API key format")

/-- Models the inline header construction of `SchlepClient::post_multipart`
(`src/client.rs:448-453`): only the `Authorization` entry is inserted;
`Content-Type` is deliberately left to the transport. -/
def multipart_headers (api_key : String) : Except Error (List (String × String)) :=
  if isValidHeaderValue ("Bearer " ++ api_key) then
    .ok [("authorization", "Bearer " ++ api_key)]
  else
    .error (.config "Invalid API key format")

/-- Default base URL (`src/lib.rs:67`). -/
def DEFAULT_BASE_URL : String := "https://api.schlep-engine.com/v1"

/-- The client handle, modelling the fields of `SchlepClient`
(`src/client.rs:44-49`); the `reqwest::Client` field holds no
claim-relevant state and is omitted. -/
structure SchlepClient where
  base_url : String
  api_key : String
deriving DecidableEq

/-- Models `SchlepClient::new` (`src/client.rs:61-73`): an empty key is
rejected with a configuration error before anything else happens; otherwise
the handle is built with the default base URL. Construction is pure — no
network step exists on this path in the source (`Client::new` opens no
connection). -/
def SchlepClient.new (api_key : String) : Except Error SchlepClient :=
  if api_key.isEmpty then
    .error (.config "API key cannot be empty")
  else
    .ok { base_url := DEFAULT_BASE_URL, api_key := api_key }

/-- Models `SchlepClient::from_env` (`src/client.rs:80-84`); the environment
is passed explicitly as the value of `SCHLEP_API_KEY`, `none` when unset. -/
def SchlepClient.from_env (env : Option String) : Except Error SchlepClient :=
  match env with
  | none => .error (.config "SCHLEP_API_KEY environment variable not set")
  | some api_key => SchlepClient.new api_key

/-- One HTTP exchange as the dispatcher observes it: the server's status code
and the response body text. -/
structure HttpResponse where
  status : Nat
  body : String

/-- Result of running one request-sending operation: the value or error
returned to the caller, and how many network requests were performed. -/
structure RequestOutcome (T : Type) where
  result : Except Error T
  networkCalls : Nat

/-- Shared shape of every request method of `SchlepClient` (`get`, `post`,
`put`, `delete`, `post_multipart`, `download` and the legacy endpoints): the
header builder runs first and its failure short-circuits via `?` before
`.send()`, so no network request happens; otherwise exactly one request is
sent and the response is classified. -/
def dispatch {T : Type} (headers : Except Error (List (String × String)))
    (resp : HttpResponse) (handle : HttpResponse → Except Error T) :
    RequestOutcome T :=
  match headers with
  | .error e => { result := .error e, networkCalls := 0 }
  | .ok _ => { result := handle resp, networkCalls := 1 }

/-- Models `SchlepClient::get` (`src/client.rs:356-369`) given the response
the network would return. -/
def SchlepClient.get {T : Type} (c : SchlepClient) (decode : String → Option T)
    (resp : HttpResponse) : RequestOutcome T :=
  dispatch (default_headers c.api_key) resp
    (fun r => handleResponse decode r.status r.body)

/-- Models `SchlepClient::post` (`src/client.rs:377-391`); the JSON body does
not influence classification and is omitted. -/
def SchlepClient.post {T : Type} (c : SchlepClient) (decode : String → Option T)
    (resp : HttpResponse) : RequestOutcome T :=
  dispatch (default_headers c.api_key) resp
    (fun r => handleResponse decode r.status r.body)

/-- Models `SchlepClient::put` (`src/client.rs:399-413`). -/
def SchlepClient.put {T : Type} (c : SchlepClient) (decode : String → Option T)
    (resp : HttpResponse) : RequestOutcome T :=
  dispatch (default_headers c.api_key) resp
    (fun r => handleResponse decode r.status r.body)

/-- Models `SchlepClient::delete` (`src/client.rs:420-433`). -/
def SchlepClient.delete {T : Type} (c : SchlepClient) (decode : String → Option T)
    (resp : HttpResponse) : RequestOutcome T :=
  dispatch (default_headers c.api_key) resp
    (fun r => handleResponse decode r.status r.body)

/-- Models `SchlepClient::post_multipart` (`src/client.rs:441-464`): the
multipart header construction runs first, then the shared response handling. -/
def SchlepClient.post_multipart {T : Type} (c : SchlepClient)
    (decode : String → Option T) (resp : HttpResponse) : RequestOutcome T :=
  dispatch (multipart_headers c.api_key) resp
    (fun r => handleResponse decode r.status r.body)

/-- Models `SchlepClient::download` (`src/client.rs:471-495`) as an
operation: default headers first, then the binary classification. -/
def SchlepClient.download_op (c : SchlepClient) (resp : HttpResponse) :
    RequestOutcome String :=
  dispatch (default_headers c.api_key) resp
    (fun r => download r.status r.body)

/-- Lowercase hexadecimal digit. -/
def hexDigit (n : Nat) : String :=
  String.singleton (if n < 10 then Char.ofNat (48 + n) else Char.ofNat (87 + n))

/-- Escape one character of a JSON string as serde_json's compact serialiser
does: quote, backslash and control characters are escaped, with the short
forms for backspace, tab, line feed, form feed and carriage return. -/
def escapeJsonChar (c : Char) : String :=
  if c == '"' then "\\\""
  else if c == '\\' then "\\\\"
  else if c == Char.ofNat 8 then "\\b"
  else if c == '\t' then "\\t"
  else if c == '\n' then "\\n"
  else if c == Char.ofNat 12 then "\\f"
  else if c == '\r' then "\\r"
  else if c.toNat < 32 then "\\u00" ++ hexDigit (c.toNat / 16) ++ hexDigit (c.toNat % 16)
  else String.singleton c

/-- Serialise a string as a JSON string literal. -/
def renderJsonString (s : String) : String :=
  "\"" ++ String.join (s.toList.map escapeJsonChar) ++ "\""

mutual

/-- Models `serde_json::Value::to_string()` (compact form). Numbers render as
their stored literal, which agrees with serde for the integer-valued numbers
the SDK produces. -/
def Json.toCompact : Json → String
  | .null => "null"
  | .bool true => "true"
  | .bool false => "false"
  | .num raw => raw
  | .str s => renderJsonString s
  | .arr xs => "[" ++ jsonListCompact xs ++ "]"
  | .obj fs => String.singleton lbrace ++ jsonFieldsCompact fs ++ String.singleton rbrace

/-- Comma-separated compact rendering of array elements. -/
def jsonListCompact : List Json → String
  | [] => ""
  | [x] => Json.toCompact x
  | x :: y :: xs => Json.toCompact x ++ "," ++ jsonListCompact (y :: xs)

/-- Comma-separated compact rendering of object fields. -/
def jsonFieldsCompact : List (String × Json) → String
  | [] => ""
  | [(k, v)] => renderJsonString k ++ ":" ++ Json.toCompact v
  | (k, v) :: f :: fs =>
    renderJsonString k ++ ":" ++ Json.toCompact v ++ "," ++ jsonFieldsCompact (f :: fs)

end

/-- Models `ListParams` (`src/types.rs:10-20`): optional page number, page
size, and status filter. The `u32` fields are modelled as `Nat`; their
decimal rendering agrees with Rust's for all `u32` values. -/
structure ListParams where
  page : Option Nat
  page_size : Option Nat
  status : Option String
deriving DecidableEq

/-- Models `serde_json::to_value` of a `ListParams`: every `None` field is
skipped (`skip_serializing_if = "Option::is_none"`), and the resulting
`serde_json::Map` (a `BTreeMap`) iterates its keys in sorted order
`page < page_size < status`, which is also the declaration order. -/
def ListParams.toJson (p : ListParams) : Json :=
  .obj
    ((match p.page with
      | some n => [("page", Json.num (toString n))]
      | none => []) ++
     (match p.page_size with
      | some n => [("page_size", Json.num (toString n))]
      | none => []) ++
     (match p.status with
      | some s => [("status", Json.str s)]
      | none => []))

/-- Models the rendering of one query value in `list_pipelines`/`list_files`:
`v.as_str().unwrap_or(&v.to_string())`, i.e. a JSON string renders verbatim
without quotes and anything else renders as its compact serialisation. -/
def Json.renderForQuery : Json → String
  | .str s => s
  | v => v.toCompact

/-- Models the shared query-building code of `MLClient::list_pipelines`
(`src/api/ml.rs:98-122`) and `StorageClient::list_files`
(`src/api/storage.rs:103-124`): with parameters, serialise them, walk the
object's entries, drop null values, render each as `key=value`, join with
`&` and append after `?`; without parameters, use the base path unchanged.
The `as_object().unwrap()` cannot fail since `ListParams` serialises to an
object; the model keeps that branch explicit with the base path as the
(unreachable) fallback. -/
def buildListPath (base : String) (params : Option ListParams) : String :=
  match params with
  | some p =>
    match p.toJson with
    | .obj fields =>
      let query_string := fields.filterMap
        (fun kv => if kv.2.isNull then none
                   else some (kv.1 ++ "=" ++ kv.2.renderForQuery))
      base ++ "?" ++ String.intercalate "&" query_string
    | _ => base
  | none => base

/-- Models the path computed by `MLClient::list_pipelines`. -/
def list_pipelines_path (params : Option ListParams) : String :=
  buildListPath "/ml/pipelines" params

/-- Models the path computed by `StorageClient::list_files`. -/
def list_files_path (params : Option ListParams) : String :=
  buildListPath "/storage/files" params

/-- Spec-side description of the query pairs, following the claim's words:
one `key=value` pair per non-null field, in field order, the value rendered
verbatim with no URL-encoding. -/
def specQueryPairs (p : ListParams) : List String :=
  (p.page.map (fun n => "page=" ++ toString n)).toList ++
  (p.page_size.map (fun n => "page_size=" ++ toString n)).toList ++
  (p.status.map (fun s => "status=" ++ s)).toList

/-- Number of non-null fields of a `ListParams`. -/
def ListParams.nonNullCount (p : ListParams) : Nat :=
  (if p.page.isSome then 1 else 0) +
  (if p.page_size.isSome then 1 else 0) +
  (if p.status.isSome then 1 else 0)

/-- Models `StreamConfig` (`src/types.rs:120-126`); the filter map is carried
as an association list in some iteration order (`HashMap` iteration order is
unspecified, and no claim depends on it). -/
structure StreamConfig where
  event_types : List String
  filters : List (String × Json)

/-- Models the serde serialisation of a `StreamConfig`. -/
def StreamConfig.toJson (cfg : StreamConfig) : Json :=
  .obj [("event_types", .arr (cfg.event_types.map Json.str)),
        ("filters", .obj cfg.filters)]

/-- Strip `pat` from the front of `cs`, returning the remainder when `cs`
starts with `pat`. -/
def stripPat : List Char → List Char → Option (List Char)
  | [], cs => some cs
  | _ :: _, [] => none
  | p :: ps, c :: cs => if c == p then stripPat ps cs else none

/-- Replace every non-overlapping occurrence of `pat` in `cs` with `rep`,
left to right, continuing after each match — the behaviour of Rust's
`str::replace` for a nonempty pattern. -/
def replaceLoop : Nat → List Char → List Char → List Char → List Char
  | 0, cs, _, _ => cs
  | fuel + 1, cs, pat, rep =>
    match cs with
    | [] => []
    | c :: rest =>
      match stripPat pat cs with
      | some remainder => rep ++ replaceLoop fuel remainder pat rep
      | none => c :: replaceLoop fuel rest pat rep

/-- Models Rust `str::replace` for the nonempty literal patterns the SDK
uses (an empty pattern is returned unchanged; the SDK never passes one). -/
def strReplace (s pat rep : String) : String :=
  if pat.isEmpty then s
  else String.mk (replaceLoop (s.length + 1) s.toList pat.toList rep.toList)

/-- Models the WebSocket URL derivation in `SchlepClient::stream`
(`src/client.rs:286-287`): `https://` is rewritten to `wss://` and `http://`
to `ws://` (Rust `str::replace` rewrites every occurrence), then `/stream`
is appended. -/
def ws_url (base_url : String) : String :=
  (strReplace (strReplace base_url "https://" "wss://") "http://" "ws://") ++ "/stream"

/-- Models the subscription control message built in `SchlepClient::stream`
(`src/client.rs:294-300`): the `serde_json::json!` object with the action,
the serialised event configuration and the API key. -/
def subscriptionMessage (api_key : String) (events : StreamConfig) : Json :=
  .obj [("action", .str "subscribe"),
        ("events", events.toJson),
        ("auth", .obj [("api_key", .str api_key)])]

/-- Observable effects of one successful `SchlepClient::stream` call: the URL
the WebSocket connected to and the list of messages sent on the connection,
in order. -/
structure StreamEffects where
  url : String
  sent : List Json

/-- Models `SchlepClient::stream` (`src/client.rs:285-306`) on the path where
the connection succeeds: the URL is derived from the base URL, the
subscription message is built into the unused `_subscription` binding, and
nothing is ever written to the socket before the function returns. -/
def SchlepClient.stream (c : SchlepClient) (events : StreamConfig) : StreamEffects :=
  let _subscription := subscriptionMessage c.api_key events
  { url := ws_url c.base_url, sent := [] }

/-- Lemma: prefixing with the valid characters `"Bearer "` cannot make an
invalid header value valid. -/
theorem isValidHeaderValue_bearer (api_key : String)
    (h : isValidHeaderValue api_key = false) :
    isValidHeaderValue ("Bearer " ++ api_key) = false := by
  unfold isValidHeaderValue at h ⊢
  rw [show ("Bearer " ++ api_key).toList = "Bearer ".toList ++ api_key.toList by
    simp [String.toList, String.data_append]]
  rw [List.all_append,
    show "Bearer ".toList.all isValidHeaderChar = true from rfl,
    Bool.true_and]
  exact h

/-- C1: for every HTTP response whose status code is outside 200-299, the
JSON dispatch path (`handle_response`, for any decoder of any expected type)
and the binary download both return an API error whose numeric code equals
the literal status of the response, for all possible response bodies. -/
theorem claim_C1_non2xx_yields_api_error_with_status {T : Type}
    (decode : String → Option T) (status : Nat) (body : String)
    (h : isSuccess status = false) :
    (∃ msg, handleResponse decode status body = .error (.api status msg)) ∧
    (∃ msg, download status body = .error (.api status msg)) := by
  constructor
  · simp only [handleResponse, h, Bool.false_eq_true, if_false]
    cases parseJson body <;> exact ⟨_, rfl⟩
  · simp only [download, h, Bool.false_eq_true, if_false]
    cases parseJson body <;> exact ⟨_, rfl⟩

/-- Witness for C1 at status 404 and body `"oops"`. -/
theorem claim_C1_non2xx_yields_api_error_with_status_witness :
    isSuccess 404 = false ∧
    ((∃ msg, handleResponse decodeValue 404 "oops" = .error (.api 404 msg)) ∧
     (∃ msg, download 404 "oops" = .error (.api 404 msg))) :=
  ⟨rfl, claim_C1_non2xx_yields_api_error_with_status decodeValue 404 "oops" rfl⟩

/-- C2: for every response with a 2xx status whose body does not decode into
the expected typed value, the dispatcher returns an invalid-response error,
and under a 2xx status it never returns an API error: the status class is
checked first and decoding happens only in the success branch. -/
theorem claim_C2_2xx_decode_failure_invalid_response {T : Type}
    (decode : String → Option T) (status : Nat) (body : String)
    (h : isSuccess status = true) :
    (decode body = none →
      handleResponse decode status body =
        .error (.invalidResponse "Failed to parse response")) ∧
    (∀ c m, handleResponse decode status body ≠ .error (.api c m)) := by
  constructor
  · intro hd
    simp [handleResponse, h, hd]
  · intro c m hcontra
    simp only [handleResponse, h, if_true] at hcontra
    cases hd : decode body <;> simp [hd] at hcontra

/-- Witness for C2 at status 200 and the non-JSON body `"not json"`. -/
theorem claim_C2_2xx_decode_failure_invalid_response_witness :
    isSuccess 200 = true ∧ decodeValue "not json" = none ∧
    handleResponse decodeValue 200 "not json" =
      .error (.invalidResponse "Failed to parse response") ∧
    handleResponse decodeValue 200 "not json" ≠ .error (.api 200 "not json") :=
  ⟨rfl, rfl,
   (claim_C2_2xx_decode_failure_invalid_response decodeValue 200 "not json" rfl).1 rfl,
   (claim_C2_2xx_decode_failure_invalid_response decodeValue 200 "not json" rfl).2 200 "not json"⟩

/-- Counterexample to C3 as stated: on an empty body the claim predicts the
message `"Unknown API error"`, but the empty body is not valid JSON, so the
code takes the raw-body branch and the message is the empty string. -/
theorem claim_C3_counterexample :
    handleResponse decodeValue 404 "" = .error (.api 404 "") ∧
    ("" : String) ≠ "Unknown API error" :=
  ⟨rfl, by decide⟩

/-- C3 (amended): for every non-2xx response, if the body parses as JSON and
`message` is a string field with value X the message is exactly X; if the
body parses as JSON without a string `message` field the message is
`"Unknown API error"`; and if the body is not valid JSON — which includes
the empty body — the message is the raw body text verbatim. -/
theorem claim_C3_amended_error_message_extraction {T : Type}
    (decode : String → Option T) (status : Nat) (body : String)
    (h : isSuccess status = false) :
    (∀ j s, parseJson body = some j → j.messageAsStr = some s →
      handleResponse decode status body = .error (.api status s)) ∧
    (∀ j, parseJson body = some j → j.messageAsStr = none →
      handleResponse decode status body =
        .error (.api status "Unknown API error")) ∧
    (parseJson body = none →
      handleResponse decode status body = .error (.api status body)) := by
  refine ⟨?_, ?_, ?_⟩
  · intro j s hp hm
    simp [handleResponse, h, hp, hm]
  · intro j hp hm
    simp [handleResponse, h, hp, hm]
  · intro hp
    simp [handleResponse, h, hp]

/-- Witness for the amended C3 at status 400 and body `{"message": "X"}`. -/
theorem claim_C3_amended_error_message_extraction_witness :
    isSuccess 400 = false ∧
    parseJson "\x7b\"message\": \"X\"\x7d" = some (.obj [("message", .str "X")]) ∧
    handleResponse decodeValue 400 "\x7b\"message\": \"X\"\x7d" =
      .error (.api 400 "X") :=
  ⟨rfl, rfl,
   (claim_C3_amended_error_message_extraction decodeValue 400
      "\x7b\"message\": \"X\"\x7d" rfl).1 (.obj [("message", .str "X")]) "X" rfl rfl⟩

/-- C4: constructing a client with an empty API key — explicitly, or through
the environment variable holding the empty string — fails immediately with a
configuration error; an unset variable is likewise a configuration error.
Construction is pure in the model, mirroring that the source performs no
network operation on this path. -/
theorem claim_C4_empty_key_config_error :
    SchlepClient.new "" = .error (.config "API key cannot be empty") ∧
    SchlepClient.from_env (some "") = .error (.config "API key cannot be empty") ∧
    SchlepClient.from_env none =
      .error (.config "SCHLEP_API_KEY environment variable not set") :=
  ⟨rfl, rfl, rfl⟩

/-- C5: whenever the default headers build successfully they carry
`Authorization: Bearer <api_key>` and `Content-Type: application/json`, and
whenever the multipart headers build successfully they carry the same
`Authorization` value and no `Content-Type` entry at all. -/
theorem claim_C5_authorization_and_content_type (api_key : String) :
    (∀ hs, default_headers api_key = .ok hs →
      hs.lookup "authorization" = some ("Bearer " ++ api_key) ∧
      hs.lookup "content-type" = some "application/json") ∧
    (∀ hs, multipart_headers api_key = .ok hs →
      hs.lookup "authorization" = some ("Bearer " ++ api_key) ∧
      hs.lookup "content-type" = none) := by
  constructor <;> intro hs h
  · unfold default_headers at h
    split at h
    · cases h
      constructor <;> rfl
    · cases h
  · unfold multipart_headers at h
    split at h
    · cases h
      constructor <;> rfl
    · cases h

/-- Witness for C5 at the API key `"k"`. -/
theorem claim_C5_authorization_and_content_type_witness :
    ([("authorization", "Bearer " ++ "k"), ("content-type", "application/json")].lookup
        "authorization" = some ("Bearer " ++ "k") ∧
     [("authorization", "Bearer " ++ "k"), ("content-type", "application/json")].lookup
        "content-type" = some "application/json") ∧
    ([("authorization", "Bearer " ++ "k")].lookup "authorization" =
        some ("Bearer " ++ "k") ∧
     ([("authorization", "Bearer " ++ "k")].lookup "content-type" :
        Option String) = none) :=
  ⟨(claim_C5_authorization_and_content_type "k").1 _ rfl,
   (claim_C5_authorization_and_content_type "k").2 _ rfl⟩

/-- C6: for both list-style calls, a supplied parameters object produces the
base path, `?`, and exactly one un-encoded `key=value` pair per non-null
field joined with `&`; an absent parameters object leaves the path
unmodified with no trailing `?`. -/
theorem claim_C6_query_string_construction (p : ListParams) :
    list_pipelines_path (some p) =
      "/ml/pipelines?" ++ String.intercalate "&" (specQueryPairs p) ∧
    list_files_path (some p) =
      "/storage/files?" ++ String.intercalate "&" (specQueryPairs p) ∧
    (specQueryPairs p).length = p.nonNullCount ∧
    list_pipelines_path none = "/ml/pipelines" ∧
    list_files_path none = "/storage/files" := by
  obtain ⟨p1, p2, p3⟩ := p
  refine ⟨?_, ?_, ?_, rfl, rfl⟩ <;> cases p1 <;> cases p2 <;> cases p3 <;> rfl

/-- C7: the binary download classifies responses exactly as the JSON path
does — on every non-2xx response it produces the very same API error value
as `handle_response` would for any decoder, and on every 2xx response it
returns the raw body unchanged rather than a decoded structure. -/
theorem claim_C7_download_same_classification {T : Type}
    (decode : String → Option T) (status : Nat) (body : String) :
    (isSuccess status = true → download status body = .ok body) ∧
    (isSuccess status = false →
      ∃ e, download status body = .error e ∧
        handleResponse decode status body = .error e) := by
  constructor
  · intro h
    simp [download, h]
  · intro h
    simp only [download, handleResponse, h, Bool.false_eq_true, if_false]
    cases parseJson body <;> exact ⟨_, rfl, rfl⟩

/-- Witness for C7 at a 2xx response with body `"abc"` and a 500 response
with body `"fail"`. -/
theorem claim_C7_download_same_classification_witness :
    (isSuccess 200 = true ∧ download 200 "abc" = .ok "abc") ∧
    (isSuccess 500 = false ∧
     ∃ e, download 500 "fail" = .error e ∧
       handleResponse decodeValue 500 "fail" = .error e) :=
  ⟨⟨rfl, (claim_C7_download_same_classification decodeValue 200 "abc").1 rfl⟩,
   ⟨rfl, (claim_C7_download_same_classification decodeValue 500 "fail").2 rfl⟩⟩

/-- C8, evaluated against the code: a successful `stream` call does connect
to `/stream` with the scheme swapped from `https` to `wss`, but the list of
messages it sends on the connection is empty — the subscription control
message built in the function body is never written to the socket, contrary
to the claim (and to the source's own `// Send subscription message`
comment). -/
theorem claim_C8_stream_connects_but_sends_nothing :
    (SchlepClient.stream { base_url := DEFAULT_BASE_URL, api_key := "k" }
      { event_types := ["training"], filters := [] }).url =
        "wss://api.schlep-engine.com/v1/stream" ∧
    (SchlepClient.stream { base_url := DEFAULT_BASE_URL, api_key := "k" }
      { event_types := ["training"], filters := [] }).sent = [] :=
  ⟨rfl, rfl⟩

/-- C9: for every non-empty API key that is not a valid HTTP header value,
client construction succeeds, and every request-sending operation — GET,
POST, PUT, DELETE, multipart POST and binary download — returns the
`"Invalid API key format"` configuration error with zero network requests
performed. -/
theorem claim_C9_invalid_key_fails_before_network (api_key : String)
    (h1 : api_key ≠ "") (h2 : isValidHeaderValue api_key = false) :
    SchlepClient.new api_key =
      .ok { base_url := DEFAULT_BASE_URL, api_key := api_key } ∧
    ∀ (T : Type) (decode : String → Option T) (resp : HttpResponse)
      (base_url : String),
      SchlepClient.get { base_url := base_url, api_key := api_key } decode resp =
        { result := .error (.config "Invalid API key format"), networkCalls := 0 } ∧
      SchlepClient.post { base_url := base_url, api_key := api_key } decode resp =
        { result := .error (.config "Invalid API key format"), networkCalls := 0 } ∧
      SchlepClient.put { base_url := base_url, api_key := api_key } decode resp =
        { result := .error (.config "Invalid API key format"), networkCalls := 0 } ∧
      SchlepClient.delete { base_url := base_url, api_key := api_key } decode resp =
        { result := .error (.config "Invalid API key format"), networkCalls := 0 } ∧
      SchlepClient.post_multipart { base_url := base_url, api_key := api_key }
          decode resp =
        { result := .error (.config "Invalid API key format"), networkCalls := 0 } ∧
      SchlepClient.download_op { base_url := base_url, api_key := api_key } resp =
        { result := .error (.config "Invalid API key format"), networkCalls := 0 } := by
  have hb := isValidHeaderValue_bearer api_key h2
  have hne : api_key.isEmpty = false := by
    rcases he : api_key.isEmpty with _ | _
    · rfl
    · exact absurd ((String.isEmpty_iff api_key).mp he) h1
  constructor
  · simp [SchlepClient.new, hne]
  · intro T decode resp base_url
    refine ⟨?_, ?_, ?_, ?_, ?_, ?_⟩ <;>
      simp [SchlepClient.get, SchlepClient.post, SchlepClient.put,
        SchlepClient.delete, SchlepClient.post_multipart,
        SchlepClient.download_op, dispatch, default_headers,
        multipart_headers, hb]

/-- Witness for C9 at the API key `"a\nb"`, which contains a newline. -/
theorem claim_C9_invalid_key_fails_before_network_witness :
    ("a\nb" : String) ≠ "" ∧ isValidHeaderValue "a\nb" = false ∧
    SchlepClient.new "a\nb" =
      .ok { base_url := DEFAULT_BASE_URL, api_key := "a\nb" } ∧
    SchlepClient.get { base_url := DEFAULT_BASE_URL, api_key := "a\nb" }
        decodeValue { status := 200, body := "ok" } =
      { result := .error (.config "Invalid API key format"), networkCalls := 0 } :=
  ⟨by decide, by decide,
   (claim_C9_invalid_key_fails_before_network "a\nb" (by decide) (by decide)).1,
   ((claim_C9_invalid_key_fails_before_network "a\nb" (by decide) (by decide)).2
      Json decodeValue { status := 200, body := "ok" } DEFAULT_BASE_URL).1⟩

/-- C10: a delete-style call decoding into `serde_json::Value` succeeds on a
2xx response whose body is any valid JSON text, but fails with an
invalid-response error on a 2xx response with a completely empty body. -/
theorem claim_C10_delete_empty_body_invalid_response (status : Nat)
    (body : String) (h : isSuccess status = true) :
    ((∃ j, parseJson body = some j) → delete_file status body = .ok ()) ∧
    delete_file status "" = .error (.invalidResponse "Failed to parse response") := by
  constructor
  · rintro ⟨j, hj⟩
    simp [delete_file, handleResponse, decodeValue, h, hj]
  · simp [delete_file, handleResponse, decodeValue, h,
      show parseJson "" = none from rfl]

/-- Witness for C10 at status 200 with bodies `{}` and the empty string. -/
theorem claim_C10_delete_empty_body_invalid_response_witness :
    isSuccess 200 = true ∧ delete_file 200 "\x7b\x7d" = .ok () ∧
    delete_file 200 "" = .error (.invalidResponse "Failed to parse response") :=
  ⟨rfl,
   (claim_C10_delete_empty_body_invalid_response 200 "\x7b\x7d" rfl).1 ⟨.obj [], rfl⟩,
   (claim_C10_delete_empty_body_invalid_response 200 "" rfl).2⟩

end Schlep
